import Mathlib

set_option maxRecDepth 100000

/-!
Verification development for the stream-consumption pipeline
(`python-consumers`): deduplication cache (`IdempotencyService`),
merge buffer (`MergeService`), consumer loop (`BaseConsumer`),
flush-with-retry (`AnalyticsService`, `ConsumerApplication`).
Each Python class is embedded as pure Lean functions over explicit
state; machine behaviour (hashing, canonical JSON, counters,
insertion-order eviction) is translated directly from the source.
-/

namespace PyJson

/-- JSON values as handled by `json.loads` / `json.dumps`; numbers are
restricted to integers, which covers every payload in the repository. -/
inductive JValue where
  | null : JValue
  | bool (b : Bool) : JValue
  | num (n : Int) : JValue
  | str (s : String) : JValue
  | arr (xs : List JValue) : JValue
  | obj (kvs : List (String × JValue)) : JValue

/-- Lowercase hexadecimal digit. -/
def hexDigit (d : Nat) : Char :=
  "0123456789abcdef".toList.getD d '0'

/-- Four lowercase hex digits, as in Python's `\uXXXX` escapes. -/
def hex4 (n : Nat) : String :=
  String.mk [hexDigit (n / 4096 % 16), hexDigit (n / 256 % 16),
             hexDigit (n / 16 % 16), hexDigit (n % 16)]

/-- `\uXXXX` escape for a code point, with a surrogate pair above the BMP,
exactly as Python's `json.dumps` with `ensure_ascii=True` emits it. -/
def uEsc (n : Nat) : String :=
  if n < 65536 then "\\u" ++ hex4 n
  else
    let m := n - 65536
    "\\u" ++ hex4 (55296 + m / 1024) ++ "\\u" ++ hex4 (56320 + m % 1024)

/-- Escape of one character inside a JSON string literal
(`json.encoder.py_encode_basestring_ascii`): characters outside
`0x20..0x7e` are escaped, with short escapes for the usual controls. -/
def escChar (c : Char) : String :=
  if c = '"' then "\\\""
  else if c = '\\' then "\\\\"
  else if c = '\n' then "\\n"
  else if c = '\r' then "\\r"
  else if c = '\t' then "\\t"
  else if c.toNat = 8 then "\\b"
  else if c.toNat = 12 then "\\f"
  else if 32 ≤ c.toNat && c.toNat ≤ 126 then String.singleton c
  else uEsc c.toNat

/-- A JSON string literal: quotes around the escaped characters. -/
def escString (s : String) : String :=
  "\"" ++ String.join (s.toList.map escChar) ++ "\""

/-- Code-point lexicographic `≤` on strings — the order Python's
`sorted()` uses on `str` keys. -/
def cpLe : List Char → List Char → Bool
  | [], _ => true
  | _ :: _, [] => false
  | a :: as, b :: bs =>
    if a.toNat < b.toNat then true
    else if b.toNat < a.toNat then false
    else cpLe as bs

def keyLe (a b : String) : Bool := cpLe a.toList b.toList

/-- Insert into a key-sorted list of rendered pairs (insertion sort step). -/
def insertPair (p : String × String) :
    List (String × String) → List (String × String)
  | [] => [p]
  | q :: r => if keyLe p.1 q.1 then p :: q :: r else q :: insertPair p r

/-- Sort rendered key/value pairs by key (`sort_keys=True`). -/
def sortPairs : List (String × String) → List (String × String)
  | [] => []
  | p :: r => insertPair p (sortPairs r)

/-- Join rendered object items with Python's default separators
`(', ', ': ')`. -/
def joinObj : List (String × String) → String
  | [] => ""
  | [(k, v)] => escString k ++ ": " ++ v
  | (k, v) :: r => escString k ++ ": " ++ v ++ ", " ++ joinObj r

mutual

/-- `json.dumps(v, sort_keys=True)` — canonical serialization with keys
sorted and default separators.  (`default=str` in the source applies only
to values `json` cannot serialize natively, which do not occur in
`JValue`; native numbers keep their numeric form.) -/
def dumps : JValue → String
  | .null => "null"
  | .bool true => "true"
  | .bool false => "false"
  | .num n => toString n
  | .str s => escString s
  | .arr xs => "[" ++ dumpsList xs ++ "]"
  | .obj kvs => "\x7b" ++ joinObj (sortPairs (dumpsKvs kvs)) ++ "\x7d"

/-- Array items joined with `', '`. -/
def dumpsList : List JValue → String
  | [] => ""
  | [x] => dumps x
  | x :: y :: r => dumps x ++ ", " ++ dumpsList (y :: r)

/-- Render each object value, keeping the raw key for sorting. -/
def dumpsKvs : List (String × JValue) → List (String × String)
  | [] => []
  | (k, v) :: r => (k, dumps v) :: dumpsKvs r

end

end PyJson

namespace Sha256

/-- Truncate to a 32-bit word. -/
def w32 (n : Nat) : Nat := n % 4294967296

/-- Rotate a 32-bit word right by `n`. -/
def rotr (x n : Nat) : Nat := w32 ((x >>> n) ||| (x <<< (32 - n)))

def ch (x y z : Nat) : Nat := (x &&& y) ^^^ ((x ^^^ 4294967295) &&& z)

def maj (x y z : Nat) : Nat := (x &&& y) ^^^ (x &&& z) ^^^ (y &&& z)

def bigS0 (x : Nat) : Nat := rotr x 2 ^^^ rotr x 13 ^^^ rotr x 22

def bigS1 (x : Nat) : Nat := rotr x 6 ^^^ rotr x 11 ^^^ rotr x 25

def smallS0 (x : Nat) : Nat := rotr x 7 ^^^ rotr x 18 ^^^ (x >>> 3)

def smallS1 (x : Nat) : Nat := rotr x 17 ^^^ rotr x 19 ^^^ (x >>> 10)

/-- The 64 SHA-256 round constants (FIPS 180-4, in decimal). -/
def K : List Nat :=
  [1116352408, 1899447441, 3049323471,
   3921009573, 961987163, 1508970993,
   2453635748, 2870763221, 3624381080,
   310598401, 607225278, 1426881987,
   1925078388, 2162078206, 2614888103,
   3248222580, 3835390401, 4022224774,
   264347078, 604807628, 770255983,
   1249150122, 1555081692, 1996064986,
   2554220882, 2821834349, 2952996808,
   3210313671, 3336571891, 3584528711,
   113926993, 338241895, 666307205,
   773529912, 1294757372, 1396182291,
   1695183700, 1986661051, 2177026350,
   2456956037, 2730485921, 2820302411,
   3259730800, 3345764771, 3516065817,
   3600352804, 4094571909, 275423344,
   430227734, 506948616, 659060556,
   883997877, 958139571, 1322822218,
   1537002063, 1747873779, 1955562222,
   2024104815, 2227730452, 2361852424,
   2428436474, 2756734187, 3204031479,
   3329325298]

/-- The eight initial hash words (FIPS 180-4, in decimal). -/
def H0 : List Nat :=
  [1779033703, 3144134277, 1013904242,
   2773480762, 1359893119, 2600822924,
   528734635, 1541459225]

/-- Extend the 16 block words to the 64-word message schedule. -/
def buildW (block : List Nat) : Array Nat :=
  (List.range 48).foldl
    (fun w i =>
      let t := i + 16
      w.push (w32 (smallS1 (w.getD (t - 2) 0) + w.getD (t - 7) 0 +
                   smallS0 (w.getD (t - 15) 0) + w.getD (t - 16) 0)))
    block.toArray

/-- One round of the compression function on state `(a,b,c,d,e,f,g,h)`. -/
def round (w k : Nat) :
    Nat × Nat × Nat × Nat × Nat × Nat × Nat × Nat →
    Nat × Nat × Nat × Nat × Nat × Nat × Nat × Nat
  | (a, b, c, d, e, f, g, h) =>
    let t1 := w32 (h + bigS1 e + ch e f g + k + w)
    let t2 := w32 (bigS0 a + maj a b c)
    (w32 (t1 + t2), a, b, c, w32 (d + t1), e, f, g)

/-- Process one 512-bit block. -/
def processBlock (hs : List Nat) (block : List Nat) : List Nat :=
  let w := buildW block
  let init := (hs.getD 0 0, hs.getD 1 0, hs.getD 2 0, hs.getD 3 0,
               hs.getD 4 0, hs.getD 5 0, hs.getD 6 0, hs.getD 7 0)
  let fin := (List.range 64).foldl
    (fun st i => round (w.getD i 0) (K.getD i 0) st) init
  match fin with
  | (a, b, c, d, e, f, g, h) =>
    [w32 (hs.getD 0 0 + a), w32 (hs.getD 1 0 + b),
     w32 (hs.getD 2 0 + c), w32 (hs.getD 3 0 + d),
     w32 (hs.getD 4 0 + e), w32 (hs.getD 5 0 + f),
     w32 (hs.getD 6 0 + g), w32 (hs.getD 7 0 + h)]

/-- Big-endian bytes (` count` of them) of `n`. -/
def beBytes (count n : Nat) : List Nat :=
  (List.range count).map (fun i => n >>> (8 * (count - 1 - i)) &&& 255)

/-- SHA-256 padding: `0x80`, zeros to 56 mod 64, then the 64-bit length. -/
def pad (msg : List Nat) : List Nat :=
  let zeros := (119 - msg.length % 64) % 64
  msg ++ [128] ++ List.replicate zeros 0 ++ beBytes 8 (8 * msg.length)

/-- Group bytes into big-endian 32-bit words. -/
def toWords : List Nat → List Nat
  | a :: b :: c :: d :: r => (a <<< 24 ||| b <<< 16 ||| c <<< 8 ||| d) :: toWords r
  | _ => []

/-- Split a word list into 16-word blocks (fuel keeps the recursion
structural; `fuel ≥ ws.length` always holds at the call site). -/
def toBlocksF : Nat → List Nat → List (List Nat)
  | 0, _ => []
  | _, [] => []
  | fuel + 1, ws => ws.take 16 :: toBlocksF fuel (ws.drop 16)

/-- Split a word list into 16-word blocks. -/
def toBlocks (ws : List Nat) : List (List Nat) :=
  toBlocksF ws.length ws

/-- SHA-256 digest of a byte sequence, as the eight state words. -/
def digestWords (msg : List Nat) : List Nat :=
  (toBlocks (toWords (pad msg))).foldl processBlock H0

/-- Word to eight lowercase hex characters. -/
def wordHex (n : Nat) : String :=
  PyJson.hex4 (n / 65536) ++ PyJson.hex4 (n % 65536)

/-- UTF-8 encoding of one character (`str.encode()`). -/
def utf8Bytes (c : Char) : List Nat :=
  let n := c.toNat
  if n < 128 then [n]
  else if n < 2048 then [192 ||| n >>> 6, 128 ||| (n &&& 63)]
  else if n < 65536 then
    [224 ||| n >>> 12, 128 ||| (n >>> 6 &&& 63), 128 ||| (n &&& 63)]
  else
    [240 ||| n >>> 18, 128 ||| (n >>> 12 &&& 63),
     128 ||| (n >>> 6 &&& 63), 128 ||| (n &&& 63)]

/-- Bytes of a string under UTF-8. -/
def strBytes (s : String) : List Nat := s.toList.flatMap utf8Bytes

/-- `hashlib.sha256(s.encode()).hexdigest()`. -/
def sha256Hex (s : String) : String :=
  String.join ((digestWords (strBytes s)).map wordHex)

end Sha256

namespace Pipeline

open PyJson

/-! Defaults from `config/settings.py`. -/

def IDEMPOTENCY_CACHE_SIZE : Nat := 10000

def IDEMPOTENCY_CACHE_TTL : Nat := 3600

def MAX_RETRIES : Nat := 3

def RETRY_BACKOFF_BASE : ℚ := 1

def RETRY_BACKOFF_MULTIPLIER : ℚ := 2

/-! ## `IdempotencyService` (services/idempotency_service.py)

The `OrderedDict` cache is a key-ordered association list (insertion
order preserved; assignment to an existing key keeps its position).
Wall-clock time (`datetime.now()`) is an explicit `Nat` argument. -/

/-- One cache value: `\x7bevent_type, record_count, payload_hash,
processed_at, expires_at\x7d`. -/
structure DedupEntry where
  event_type : String
  record_count : Nat
  payload_hash : String
  processed_at : Nat
  expires_at : Nat
deriving DecidableEq

/-- `self._cache : OrderedDict[str, Dict]` in insertion order. -/
abbrev Cache := List (String × DedupEntry)

/-- `_cleanup_expired`: drop every entry with `expires_at < now`. -/
def cleanupExpired (now : Nat) (c : Cache) : Cache :=
  c.filter (fun p => !(decide (p.2.expires_at < now)))

/-- `is_processed`: sweep expired entries, then key membership.
Returns the answer and the swept cache. -/
def isProcessed (now : Nat) (message_id : String) (c : Cache) :
    Bool × Cache :=
  let c := cleanupExpired now c
  (c.any (fun p => p.1 == message_id), c)

/-- `is_duplicate_content`: sweep, then linear scan for a stored hash. -/
def isDuplicateContent (now : Nat) (payload_hash : String) (c : Cache) :
    Bool × Cache :=
  let c := cleanupExpired now c
  (c.any (fun p => p.2.payload_hash == payload_hash), c)

/-- `OrderedDict` assignment: overwrite in place if the key exists,
otherwise append at the end. -/
def odSet (c : Cache) (k : String) (e : DedupEntry) : Cache :=
  if c.any (fun p => p.1 == k) then
    c.map (fun p => if p.1 == k then (k, e) else p)
  else c ++ [(k, e)]

/-- `mark_processed`: if the cache is full (`len >= max_size`) delete the
first-inserted entry (`next(iter(...))`), then store the new entry with
`expires_at = now + ttl`. -/
def markProcessed (now ttl maxSize : Nat) (message_id event_type : String)
    (record_count : Nat) (payload_hash : String) (c : Cache) : Cache :=
  let c := if maxSize ≤ c.length then c.tail else c
  odSet c message_id
    ⟨event_type, record_count, payload_hash, now, now + ttl⟩

/-- `get_payload_hash`: SHA-256 hex digest of
`json.dumps(payload, sort_keys=True, default=str)`. -/
def getPayloadHash (payload : JValue) : String :=
  Sha256.sha256Hex (dumps payload)

/-! ## `MergeService` (services/merge_service.py) -/

/-- The two append-only buffers. -/
structure MergeSt where
  customer_buffer : List JValue
  inventory_buffer : List JValue

/-- `add_customer_data`: `self.customer_buffer.extend(customers)`. -/
def addCustomerData (m : MergeSt) (customers : List JValue) : MergeSt :=
  { m with customer_buffer := m.customer_buffer ++ customers }

/-- `add_inventory_data`: `self.inventory_buffer.extend(products)`. -/
def addInventoryData (m : MergeSt) (products : List JValue) : MergeSt :=
  { m with inventory_buffer := m.inventory_buffer ++ products }

/-- `has_data`: either buffer non-empty. -/
def hasData (m : MergeSt) : Bool :=
  decide (m.customer_buffer.length > 0) ||
  decide (m.inventory_buffer.length > 0)

/-- The record content of the payload built by `create_analytics_payload`
(`eventId`/timestamps are fresh clock/uuid strings, not modelled). -/
structure AnalyticsPayload where
  customers : List JValue
  products : List JValue
  customerCount : Nat
  productCount : Nat

/-- `create_analytics_payload`: copies both buffers into the payload.
It only reads the buffers — the `MergeSt` is left unchanged. -/
def createAnalyticsPayload (m : MergeSt) : AnalyticsPayload :=
  ⟨m.customer_buffer, m.inventory_buffer,
   m.customer_buffer.length, m.inventory_buffer.length⟩

/-- `clear_buffers`: empty both buffers. -/
def clearBuffers (_m : MergeSt) : MergeSt := ⟨[], []⟩

/-- `get_buffer_stats`: `(customer_count, product_count, total_records)`. -/
def getBufferStats (m : MergeSt) : Nat × Nat × Nat :=
  (m.customer_buffer.length, m.inventory_buffer.length,
   m.customer_buffer.length + m.inventory_buffer.length)

/-! ## `BaseConsumer` (consumers/base_consumer.py) -/

/-- A successfully parsed message, with the fields `_process_message`
reads (each read via `.get` with a default). -/
structure MessageData where
  messageId : Option String
  eventType : Option String
  payload : Option (List JValue)

/-- One fetched, error-free poll result: either its value fails
`json.loads` or it parses to a `MessageData`. -/
inductive PollItem where
  | malformed
  | msg (m : MessageData)

/-- Result of one `process_callback` invocation: a returned boolean
(with the merge state it left behind) or a raised exception. -/
inductive CbResult where
  | ok (b : Bool) (m : MergeSt)
  | exn (m : MergeSt)

/-- The `process_callback` parameter of `consume`. -/
abbrev Callback := MessageData → MergeSt → CbResult

/-- Mutable state seen by one consumer: the shared cache and merge
buffer plus this consumer's counters. -/
structure ConsumerSt where
  cache : Cache
  merge : MergeSt
  messages_processed : Nat
  messages_skipped : Nat
  errors_count : Nat

/-- Outcome of `_process_message`: its boolean result, whether the
callback was invoked, and the state left behind. -/
structure ProcOut where
  success : Bool
  callbackInvoked : Bool
  st : ConsumerSt

/-- `_process_message`, lines 96–177: identity dedup, content dedup
(marking the identity), otherwise callback then `mark_processed`;
`json.JSONDecodeError` and any exception are caught and yield `False`. -/
def processMessage (ttl maxSize now : Nat) (cb : Callback)
    (item : PollItem) (st : ConsumerSt) : ProcOut :=
  match item with
  | .malformed => ⟨false, false, st⟩
  | .msg m =>
    let message_id := m.messageId.getD "unknown"
    let event_type := m.eventType.getD "unknown"
    let r1 := isProcessed now message_id st.cache
    if r1.1 then
      ⟨true, false, { st with cache := r1.2,
                              messages_skipped := st.messages_skipped + 1 }⟩
    else
      let payload := m.payload.getD []
      let payload_hash := getPayloadHash (.arr payload)
      let r2 := isDuplicateContent now payload_hash r1.2
      if r2.1 then
        ⟨true, false,
         { st with
             cache := markProcessed now ttl maxSize message_id event_type
               payload.length payload_hash r2.2,
             messages_skipped := st.messages_skipped + 1 }⟩
      else
        match cb m st.merge with
        | .exn mg => ⟨false, true, { st with cache := r2.2, merge := mg }⟩
        | .ok success mg =>
          if success then
            ⟨true, true,
             { st with
                 cache := markProcessed now ttl maxSize message_id
                   event_type payload.length payload_hash r2.2,
                 merge := mg }⟩
          else
            ⟨false, true, { st with cache := r2.2, merge := mg }⟩

/-- What the `consume` loop did with one message: whether its offset
was committed, and whether the callback ran. -/
structure StepInfo where
  committed : Bool
  callbackInvoked : Bool
deriving DecidableEq

/-- One iteration of the `consume` loop, lines 76–87, for a fetched
error-free message: commit and count on success, else count an error
and withhold the offset.  The item carries its poll time. -/
def consumeStep (ttl maxSize : Nat) (cb : Callback) (st : ConsumerSt)
    (item : Nat × PollItem) : ConsumerSt × StepInfo :=
  let r := processMessage ttl maxSize item.1 cb item.2 st
  if r.success then
    ({ r.st with messages_processed := r.st.messages_processed + 1 },
     ⟨true, r.callbackInvoked⟩)
  else
    ({ r.st with errors_count := r.st.errors_count + 1 },
     ⟨false, r.callbackInvoked⟩)

/-- The `consume` loop over a sequence of fetched messages, returning
the final state and the per-message step record. -/
def runConsumer (ttl maxSize : Nat) (cb : Callback) (st : ConsumerSt) :
    List (Nat × PollItem) → ConsumerSt × List StepInfo
  | [] => (st, [])
  | item :: rest =>
    let r := consumeStep ttl maxSize cb st item
    let rr := runConsumer ttl maxSize cb r.1 rest
    (rr.1, r.2 :: rr.2)

/-- `CustomerConsumer._process_customer_message`: append the payload to
the customer buffer when non-empty, return `True`. -/
def processCustomerMessage : Callback := fun m mg =>
  let payload := m.payload.getD []
  if payload.isEmpty then .ok true mg
  else .ok true (addCustomerData mg payload)

/-- `InventoryConsumer._process_inventory_message`: append the payload
to the inventory buffer when non-empty, return `True`. -/
def processInventoryMessage : Callback := fun m mg =>
  let payload := m.payload.getD []
  if payload.isEmpty then .ok true mg
  else .ok true (addInventoryData mg payload)

/-! ## `AnalyticsService` (services/analytics_service.py) -/

/-- Outcome of one `self.session.post(...)` call, classified as the
`except` clauses of `send_analytics_data` do. -/
inductive PostOutcome where
  | success
  | timeout
  | httpError (status : Nat)
  | requestError
  | otherError

/-- What a call to `send_analytics_data` did: its boolean result, the
number of `post` attempts, and the backoff delays slept in between. -/
structure SendOut where
  result : Bool
  attempts : Nat
  delays : List ℚ
deriving DecidableEq

/-- `_backoff`: `delay = backoff_base * backoff_multiplier ** (attempt - 1)`. -/
def backoffDelay (base mult : ℚ) (attempt : Nat) : ℚ :=
  base * mult ^ (attempt - 1)

/-- The `for attempt in range(1, max_retries + 1)` loop of
`send_analytics_data`: success returns immediately; a 4xx `HTTPError`
returns `False` without further attempts; every other failure backs off
(`attempt < max_retries`) and retries.  `attempt` is the current attempt
number, the second argument counts the attempts still allowed. -/
def sendAux (base mult : ℚ) (outcomes : Nat → PostOutcome) :
    Nat → Nat → SendOut
  | _, 0 => ⟨false, 0, []⟩
  | attempt, k + 1 =>
    match outcomes attempt with
    | .success => ⟨true, 1, []⟩
    | .httpError status =>
      if 400 ≤ status && status < 500 then ⟨false, 1, []⟩
      else if k = 0 then ⟨false, 1, []⟩
      else
        let r := sendAux base mult outcomes (attempt + 1) k
        ⟨r.result, r.attempts + 1, backoffDelay base mult attempt :: r.delays⟩
    | _ =>
      if k = 0 then ⟨false, 1, []⟩
      else
        let r := sendAux base mult outcomes (attempt + 1) k
        ⟨r.result, r.attempts + 1, backoffDelay base mult attempt :: r.delays⟩

/-- `send_analytics_data` with the per-attempt `post` outcomes given by
`outcomes` (attempt numbers start at 1). -/
def sendAnalyticsData (maxRetries : Nat) (base mult : ℚ)
    (outcomes : Nat → PostOutcome) : SendOut :=
  sendAux base mult outcomes 1 maxRetries

/-! ## `ConsumerApplication._flush_to_analytics` (main.py, lines 130–158) -/

/-- One flush: build the payload from the buffers, send it
(`sendSuccess` is the boolean `send_analytics_data` returned), and clear
the buffers only when the send succeeded. -/
def flushToAnalytics (sendSuccess : Bool) (m : MergeSt) :
    AnalyticsPayload × MergeSt :=
  let payload := createAnalyticsPayload m
  if sendSuccess then (payload, clearBuffers m) else (payload, m)

/-- Modelled from the spec: the `snapshotAndClear() -> (customers,
products)` operation of §4.2 — absent from the source, which has only
`create_analytics_payload` (read-only) and `clear_buffers` — captures
both sequences and resets them to empty in one indivisible step. -/
def snapshotAndClearSpec (m : MergeSt) :
    (List JValue × List JValue) × MergeSt :=
  ((m.customer_buffer, m.inventory_buffer), ⟨[], []⟩)

end Pipeline

namespace Pipeline

open PyJson

/-- A one-customer buffer used as concrete input for the flush claims. -/
def mergeC1 : MergeSt := ⟨[JValue.obj [("id", JValue.str "c1")]], []⟩

/-- C4 counterexample: the flush drain is not `snapshotAndClear`.  If the
buffer were atomically cleared at snapshot time, the state reaching the
submission's outcome would be the cleared state in every case; but after
a flush whose send failed, the code's buffer still holds the record
(`clear_buffers` runs only on success), so at submission time the buffer
had not been cleared. -/
theorem C4_counterexample :
    (flushToAnalytics false mergeC1).2 ≠ (snapshotAndClearSpec mergeC1).2 ∧
    hasData (flushToAnalytics false mergeC1).2 = true := by
  constructor
  · intro h
    have h2 := congrArg MergeSt.customer_buffer h
    simp [flushToAnalytics, snapshotAndClearSpec, createAnalyticsPayload,
      mergeC1] at h2
  · rfl

/-- C4 amended: each flush tick builds its payload from the current
buffer contents, but the buffers are cleared only after a confirmed
successful send; after a failed send the buffer is unchanged, so the
records are still in the buffer at and after submission time. -/
theorem C4_flush_drain (m : MergeSt) :
    (flushToAnalytics true m).1.customers = m.customer_buffer ∧
    (flushToAnalytics true m).1.products = m.inventory_buffer ∧
    (flushToAnalytics true m).2 = clearBuffers m ∧
    (flushToAnalytics false m).1.customers = m.customer_buffer ∧
    (flushToAnalytics false m).1.products = m.inventory_buffer ∧
    (flushToAnalytics false m).2 = m := by
  refine ⟨rfl, rfl, rfl, rfl, rfl, rfl⟩

/-- C5 counterexample: after a flush whose submission failed, the very
next flush's payload contains the same record again — the drained
records are not lost. -/
theorem C5_counterexample :
    (flushToAnalytics true (flushToAnalytics false mergeC1).2).1.customers
      = [JValue.obj [("id", JValue.str "c1")]] := by
  rfl

/-- C5 amended: a flush cycle whose downstream submission fails leaves
the merge buffer untouched (the records were never removed by the
payload construction), so the same records appear again in the next
flush's payload; no data is dropped at a failed flush. -/
theorem C5_failed_flush_keeps_buffer (m : MergeSt) :
    (flushToAnalytics false m).2 = m ∧
    (flushToAnalytics true (flushToAnalytics false m).2).1.customers
      = m.customer_buffer ∧
    (flushToAnalytics true (flushToAnalytics false m).2).1.products
      = m.inventory_buffer := by
  refine ⟨rfl, rfl, rfl⟩

/-- `True` exactly when this `post` outcome takes the retry/backoff path
of `send_analytics_data` (not success, not a 4xx abort). -/
def PostOutcome.isTransient : PostOutcome → Bool
  | .success => false
  | .httpError status => !(400 ≤ status && status < 500)
  | _ => true

/-- One loop iteration of `send_analytics_data` on a transient outcome:
back off and retry when attempts remain, otherwise give up. -/
theorem sendAux_succ_transient (base mult : ℚ) (o : Nat → PostOutcome)
    (attempt k : Nat) (h : (o attempt).isTransient = true) :
    sendAux base mult o attempt (k + 1) =
      if k = 0 then ⟨false, 1, []⟩
      else
        ⟨(sendAux base mult o (attempt + 1) k).result,
         (sendAux base mult o (attempt + 1) k).attempts + 1,
         backoffDelay base mult attempt ::
           (sendAux base mult o (attempt + 1) k).delays⟩ := by
  rcases ho : o attempt with _ | _ | st | _ | _
  · simp [PostOutcome.isTransient, ho] at h
  · simp [sendAux, ho]
  · have hst : ¬(400 ≤ st ∧ st < 500) := by
      simp [PostOutcome.isTransient, ho] at h
      omega
    simp [sendAux, ho, hst]
  · simp [sendAux, ho]
  · simp [sendAux, ho]

/-- One loop iteration of `send_analytics_data` on a successful `post`. -/
theorem sendAux_succ_success (base mult : ℚ) (o : Nat → PostOutcome)
    (attempt k : Nat) (h : o attempt = .success) :
    sendAux base mult o attempt (k + 1) = ⟨true, 1, []⟩ := by
  simp [sendAux, h]

/-- C6: with `max_retries = 3`, two transient failures followed by a
success make exactly 3 `post` attempts with exactly 2 backoff delays of
`base * mult ^ 0` and `base * mult ^ 1` (1s and 2s at the defaults), and
none after the final attempt; a 4xx on the first attempt makes exactly
1 attempt and fails immediately. -/
theorem C6_retry_backoff (base mult : ℚ) (o o' : Nat → PostOutcome)
    (s : Nat)
    (h1 : (o 1).isTransient = true) (h2 : (o 2).isTransient = true)
    (h3 : o 3 = .success)
    (h4 : o' 1 = .httpError s) (h5 : 400 ≤ s) (h6 : s < 500) :
    sendAnalyticsData MAX_RETRIES base mult o =
      ⟨true, 3, [base * mult ^ 0, base * mult ^ 1]⟩ ∧
    sendAnalyticsData MAX_RETRIES base mult o' = ⟨false, 1, []⟩ := by
  constructor
  · have e1 : sendAux base mult o 3 1 = ⟨true, 1, []⟩ :=
      sendAux_succ_success base mult o 3 0 h3
    have e2 : sendAux base mult o 2 2 =
        ⟨true, 2, [backoffDelay base mult 2]⟩ := by
      have h := sendAux_succ_transient base mult o 2 1 h2
      rw [e1] at h
      simpa using h
    have e3 : sendAux base mult o 1 3 =
        ⟨true, 3, [backoffDelay base mult 1, backoffDelay base mult 2]⟩ := by
      have h := sendAux_succ_transient base mult o 1 2 h1
      rw [e2] at h
      simpa using h
    simpa [sendAnalyticsData, MAX_RETRIES, backoffDelay] using e3
  · have hs : 400 ≤ s ∧ s < 500 := ⟨h5, h6⟩
    simp [sendAnalyticsData, MAX_RETRIES, sendAux, h4, hs]

/-- C6 witness at the concrete inputs of the spec's testable property. -/
theorem C6_retry_backoff_witness :
    sendAnalyticsData MAX_RETRIES 1 2
        (fun n => if n = 3 then .success else .timeout) =
      ⟨true, 3, [1 * 2 ^ 0, 1 * 2 ^ 1]⟩ ∧
    sendAnalyticsData MAX_RETRIES 1 2 (fun _ => .httpError 400) =
      ⟨false, 1, []⟩ :=
  C6_retry_backoff 1 2 (fun n => if n = 3 then .success else .timeout)
    (fun _ => .httpError 400) 400 (by decide) (by decide) rfl
    rfl (by decide) (by decide)

/-! ## C7: insertion-order eviction -/

/-- One `mark_processed` call with the test scenario's parameters
(`max_size = 3`, TTL 3600, clock at 0, one record per message). -/
def c7Insert (mid ph : String) (c : Cache) : Cache :=
  markProcessed 0 3600 3 mid "CUSTOMER" 1 ph c

/-- Cache contents after inserting `m1 m2 m3`, looking `m1` up (an
access that must not refresh its position), then inserting `m4`. -/
def c7Cache : Cache :=
  c7Insert "m4" "h4"
    (isProcessed 0 "m1"
      (c7Insert "m3" "h3" (c7Insert "m2" "h2" (c7Insert "m1" "h1" [])))).2

/-- C7: a `mark_processed` call on a cache at capacity whose key is not
among the retained entries removes exactly the first-inserted entry and
appends the new one with `expires_at = now + ttl`; concretely, with
`max_size = 3`, inserting four distinct identities — even after an
access to the first — evicts exactly the first-inserted identity and
leaves the other three lookup-positive. -/
theorem C7_eviction (c : Cache) (now ttl maxSize rc : Nat)
    (mid et ph : String) (hcap : c.length = maxSize)
    (hfresh : c.tail.any (fun p => p.1 == mid) = false) :
    markProcessed now ttl maxSize mid et rc ph c =
      c.tail ++ [(mid, ⟨et, rc, ph, now, now + ttl⟩)] ∧
    ((isProcessed 0 "m1"
        (c7Insert "m3" "h3" (c7Insert "m2" "h2" (c7Insert "m1" "h1" [])))).1
       = true ∧
     (isProcessed 0 "m1" c7Cache).1 = false ∧
     (isProcessed 0 "m2" c7Cache).1 = true ∧
     (isProcessed 0 "m3" c7Cache).1 = true ∧
     (isProcessed 0 "m4" c7Cache).1 = true) := by
  constructor
  · simp [markProcessed, odSet, hcap, hfresh]
  · refine ⟨by decide, by decide, by decide, by decide, by decide⟩

/-- C7 witness: a concrete full cache with a fresh key. -/
theorem C7_eviction_witness :
    markProcessed 5 7 3 "d" "CUSTOMER" 2 "hd"
        [("a", ⟨"CUSTOMER", 1, "ha", 0, 10⟩),
         ("b", ⟨"CUSTOMER", 1, "hb", 0, 10⟩),
         ("c", ⟨"CUSTOMER", 1, "hc", 0, 10⟩)] =
      [("b", ⟨"CUSTOMER", 1, "hb", 0, 10⟩),
       ("c", ⟨"CUSTOMER", 1, "hc", 0, 10⟩),
       ("d", ⟨"CUSTOMER", 2, "hd", 5, 5 + 7⟩)] ∧
    ((isProcessed 0 "m1"
        (c7Insert "m3" "h3" (c7Insert "m2" "h2" (c7Insert "m1" "h1" [])))).1
       = true ∧
     (isProcessed 0 "m1" c7Cache).1 = false ∧
     (isProcessed 0 "m2" c7Cache).1 = true ∧
     (isProcessed 0 "m3" c7Cache).1 = true ∧
     (isProcessed 0 "m4" c7Cache).1 = true) :=
  C7_eviction
    [("a", ⟨"CUSTOMER", 1, "ha", 0, 10⟩),
     ("b", ⟨"CUSTOMER", 1, "hb", 0, 10⟩),
     ("c", ⟨"CUSTOMER", 1, "hc", 0, 10⟩)]
    5 7 3 2 "d" "CUSTOMER" "hd" rfl (by decide)

end Pipeline

namespace PyJson

/-! ## C8: canonical-serialization properties of the payload hash -/

/-- Ordering used to sort rendered object items: key comparison. -/
def PairLe (p q : String × String) : Prop := keyLe p.1 q.1 = true

theorem cpLe_total (x y : List Char) : cpLe x y = true ∨ cpLe y x = true := by
  induction x generalizing y with
  | nil => left; rfl
  | cons a as ih =>
    cases y with
    | nil => right; rfl
    | cons b bs =>
      by_cases hab : a.toNat < b.toNat
      · left; simp [cpLe, hab]
      · by_cases hba : b.toNat < a.toNat
        · right; simp [cpLe, hba]
        · rcases ih bs with h | h
          · left; simp [cpLe, hab, hba, h]
          · right; simp [cpLe, hab, hba, h]

theorem char_eq_of_toNat_eq (a b : Char) (h : a.toNat = b.toNat) : a = b :=
  (StrictMono.injective fun _ _ hlt => hlt : Function.Injective Char.toNat) h

theorem cpLe_antisymm (x y : List Char) (h1 : cpLe x y = true)
    (h2 : cpLe y x = true) : x = y := by
  induction x generalizing y with
  | nil =>
    cases y with
    | nil => rfl
    | cons b bs => simp [cpLe] at h2
  | cons a as ih =>
    cases y with
    | nil => simp [cpLe] at h1
    | cons b bs =>
      by_cases hab : a.toNat < b.toNat
      · have hba : ¬ b.toNat < a.toNat := by omega
        simp [cpLe, hab, hba] at h2
      · by_cases hba : b.toNat < a.toNat
        · simp [cpLe, hab, hba] at h1
        · have he : a = b := char_eq_of_toNat_eq a b (by omega)
          subst he
          simp [cpLe, hab] at h1 h2
          rw [ih bs h1 h2]

theorem cpLe_trans (x : List Char) : ∀ y z : List Char,
    cpLe x y = true → cpLe y z = true → cpLe x z = true := by
  induction x with
  | nil => intro y z _ _; rfl
  | cons a as ih =>
    intro y z h1 h2
    cases y with
    | nil => simp [cpLe] at h1
    | cons b bs =>
      cases z with
      | nil => simp [cpLe] at h2
      | cons c cs =>
        by_cases hab : a.toNat < b.toNat <;> by_cases hbc : b.toNat < c.toNat
        · have hac : a.toNat < c.toNat := by omega
          simp [cpLe, hac]
        · by_cases hcb : c.toNat < b.toNat
          · simp [cpLe, hbc, hcb] at h2
          · have hac : a.toNat < c.toNat := by omega
            simp [cpLe, hac]
        · by_cases hba : b.toNat < a.toNat
          · simp [cpLe, hab, hba] at h1
          · have hac : a.toNat < c.toNat := by omega
            simp [cpLe, hac]
        · by_cases hba : b.toNat < a.toNat
          · simp [cpLe, hab, hba] at h1
          · by_cases hcb : c.toNat < b.toNat
            · simp [cpLe, hbc, hcb] at h2
            · have hac : ¬ a.toNat < c.toNat := by omega
              have hca : ¬ c.toNat < a.toNat := by omega
              simp [cpLe, hab, hba] at h1
              simp [cpLe, hbc, hcb] at h2
              simp [cpLe, hac, hca]
              exact ih bs cs h1 h2

theorem keyLe_total (a b : String) : keyLe a b = true ∨ keyLe b a = true :=
  cpLe_total a.toList b.toList

theorem keyLe_antisymm (a b : String) (h1 : keyLe a b = true)
    (h2 : keyLe b a = true) : a = b :=
  String.ext (cpLe_antisymm a.toList b.toList h1 h2)

theorem keyLe_trans (a b c : String) (h1 : keyLe a b = true)
    (h2 : keyLe b c = true) : keyLe a c = true :=
  cpLe_trans a.toList b.toList c.toList h1 h2

theorem insertPair_perm (p : String × String) (l : List (String × String)) :
    (insertPair p l).Perm (p :: l) := by
  induction l with
  | nil => exact List.Perm.refl _
  | cons q r ih =>
    unfold insertPair
    by_cases h : keyLe p.1 q.1
    · simp [h]
    · simp only [h, if_false, Bool.false_eq_true]
      exact ((ih.cons q).trans (List.Perm.swap p q r))

theorem mem_insertPair (x p : String × String) (l : List (String × String))
    (hx : x ∈ insertPair p l) : x = p ∨ x ∈ l := by
  have := (insertPair_perm p l).mem_iff.mp hx
  simpa using this

theorem insertPair_pairwise (p : String × String)
    (l : List (String × String)) (h : l.Pairwise PairLe) :
    (insertPair p l).Pairwise PairLe := by
  induction l with
  | nil => simp [insertPair, PairLe, List.Pairwise]
  | cons q r ih =>
    unfold insertPair
    by_cases hpq : keyLe p.1 q.1
    · simp only [hpq, if_true]
      constructor
      · intro x hx
        rcases List.mem_cons.mp hx with hx | hx
        · subst hx; exact hpq
        · have hqx : PairLe q x := (List.pairwise_cons.mp h).1 x hx
          exact keyLe_trans p.1 q.1 x.1 hpq hqx
      · exact h
    · simp only [hpq, if_false, Bool.false_eq_true]
      have hqp : keyLe q.1 p.1 = true := by
        rcases keyLe_total p.1 q.1 with h' | h'
        · exact absurd h' hpq
        · exact h'
      constructor
      · intro x hx
        rcases mem_insertPair x p r hx with hx | hx
        · subst hx; exact hqp
        · exact (List.pairwise_cons.mp h).1 x hx
      · exact ih (List.pairwise_cons.mp h).2

theorem sortPairs_perm (l : List (String × String)) :
    (sortPairs l).Perm l := by
  induction l with
  | nil => exact List.Perm.refl _
  | cons p r ih =>
    exact (insertPair_perm p (sortPairs r)).trans (ih.cons p)

theorem sortPairs_pairwise (l : List (String × String)) :
    (sortPairs l).Pairwise PairLe := by
  induction l with
  | nil => simp [sortPairs]
  | cons p r ih => exact insertPair_pairwise p (sortPairs r) ih

/-- Two key-sorted pair lists that are permutations of each other with
duplicate-free keys are equal. -/
theorem sorted_perm_nodup_eq (l₁ : List (String × String)) :
    ∀ l₂, l₁.Pairwise PairLe → l₂.Pairwise PairLe → l₁.Perm l₂ →
      (l₁.map Prod.fst).Nodup → l₁ = l₂ := by
  induction l₁ with
  | nil =>
    intro l₂ _ _ hp _
    exact hp.nil_eq
  | cons a t₁ ih =>
    intro l₂ s₁ s₂ hp hn
    cases l₂ with
    | nil => exact absurd hp.symm.nil_eq (by simp)
    | cons b t₂ =>
      have hab : a = b := by
        have hain : a ∈ b :: t₂ := hp.mem_iff.mp (List.mem_cons_self a t₁)
        have hbin : b ∈ a :: t₁ := hp.symm.mem_iff.mp (List.mem_cons_self b t₂)
        rcases List.mem_cons.mp hain with h | hat₂
        · exact h
        · rcases List.mem_cons.mp hbin with h | hbt₁
          · exact h.symm
          · have h1 : PairLe a b := (List.pairwise_cons.mp s₁).1 b hbt₁
            have h2 : PairLe b a := (List.pairwise_cons.mp s₂).1 a hat₂
            have hk : a.1 = b.1 := keyLe_antisymm a.1 b.1 h1 h2
            have hmem : a.1 ∈ t₁.map Prod.fst :=
              hk ▸ List.mem_map_of_mem Prod.fst hbt₁
            exact absurd hmem (List.nodup_cons.mp hn).1
      subst hab
      have ht : t₁.Perm t₂ := hp.cons_inv
      have := ih t₂ (List.pairwise_cons.mp s₁).2 (List.pairwise_cons.mp s₂).2
        ht (List.nodup_cons.mp hn).2
      rw [this]

theorem dumpsKvs_eq_map (kvs : List (String × JValue)) :
    dumpsKvs kvs = kvs.map (fun p => (p.1, dumps p.2)) := by
  induction kvs with
  | nil => rfl
  | cons p r ih =>
    cases p
    simp [dumpsKvs, ih]

/-- The canonical serialization of an object is invariant under
permutation of its items when keys are duplicate-free. -/
theorem dumps_obj_perm (kvs₁ kvs₂ : List (String × JValue))
    (hperm : kvs₁.Perm kvs₂) (hnodup : (kvs₁.map Prod.fst).Nodup) :
    dumps (.obj kvs₁) = dumps (.obj kvs₂) := by
  have hmap : (dumpsKvs kvs₁).Perm (dumpsKvs kvs₂) := by
    rw [dumpsKvs_eq_map, dumpsKvs_eq_map]
    exact hperm.map _
  have hkeys : ((dumpsKvs kvs₁).map Prod.fst).Nodup := by
    rw [dumpsKvs_eq_map, List.map_map]
    simpa [Function.comp] using hnodup
  have hsortnodup : ((sortPairs (dumpsKvs kvs₁)).map Prod.fst).Nodup :=
    (((sortPairs_perm (dumpsKvs kvs₁)).map Prod.fst).nodup_iff).mpr hkeys
  have hsortperm : (sortPairs (dumpsKvs kvs₁)).Perm
      (sortPairs (dumpsKvs kvs₂)) :=
    ((sortPairs_perm (dumpsKvs kvs₁)).trans hmap).trans
      (sortPairs_perm (dumpsKvs kvs₂)).symm
  have : sortPairs (dumpsKvs kvs₁) = sortPairs (dumpsKvs kvs₂) :=
    sorted_perm_nodup_eq _ _ (sortPairs_pairwise _) (sortPairs_pairwise _)
      hsortperm hsortnodup
  simp [dumps, this]

/-- The SHA-256 digests of `\x7b"a": 1\x7d` and `\x7b"a": "1"\x7d`
differ: `json.dumps` keeps JSON-native values in their typed form
(`default=str` applies only to non-serializable objects). -/
theorem hash_num_ne_str :
    Pipeline.getPayloadHash (.obj [("a", JValue.num 1)]) ≠
      Pipeline.getPayloadHash (.obj [("a", JValue.str "1")]) := by
  decide

end PyJson

namespace Pipeline

/-- C8 counterexample: the payloads `\x7b"a": 1\x7d` (numeric value) and
`\x7b"a": "1"\x7d` (its textual form) do not produce identical hashes —
native field types are not flattened to text by the canonical
serialization. -/
theorem C8_counterexample :
    getPayloadHash (.obj [("a", PyJson.JValue.num 1)]) ≠
      getPayloadHash (.obj [("a", PyJson.JValue.str "1")]) :=
  PyJson.hash_num_ne_str

/-- C8 amended: `hashPayload` is deterministic under the canonical
serialization — permuting the keys of an object (duplicate-free keys)
never changes the hash — but JSON-native values keep their typed form,
so a numeric value and its textual form hash differently. -/
theorem C8_hash_stability (kvs₁ kvs₂ : List (String × PyJson.JValue))
    (hperm : kvs₁.Perm kvs₂)
    (hnodup : (kvs₁.map Prod.fst).Nodup) :
    getPayloadHash (.obj kvs₁) = getPayloadHash (.obj kvs₂) ∧
    getPayloadHash (.obj [("a", PyJson.JValue.num 1)]) ≠
      getPayloadHash (.obj [("a", PyJson.JValue.str "1")]) := by
  constructor
  · unfold getPayloadHash
    rw [PyJson.dumps_obj_perm kvs₁ kvs₂ hperm hnodup]
  · exact PyJson.hash_num_ne_str

/-- C8 witness: the spec's concrete instance — the hashes of
`\x7b"a":1,"b":2\x7d` and `\x7b"b":2,"a":1\x7d` coincide. -/
theorem C8_hash_stability_witness :
    getPayloadHash
        (.obj [("a", PyJson.JValue.num 1), ("b", PyJson.JValue.num 2)]) =
      getPayloadHash
        (.obj [("b", PyJson.JValue.num 2), ("a", PyJson.JValue.num 1)]) ∧
    getPayloadHash (.obj [("a", PyJson.JValue.num 1)]) ≠
      getPayloadHash (.obj [("a", PyJson.JValue.str "1")]) :=
  C8_hash_stability
    [("a", PyJson.JValue.num 1), ("b", PyJson.JValue.num 2)]
    [("b", PyJson.JValue.num 2), ("a", PyJson.JValue.num 1)]
    (List.Perm.swap _ _ _) (by decide)

/-! ## Consumer-loop lemmas -/

theorem markProcessed_nil (now ttl maxSize rc : Nat) (mid et ph : String) :
    markProcessed now ttl maxSize mid et rc ph [] =
      [(mid, ⟨et, rc, ph, now, now + ttl⟩)] := by
  simp [markProcessed, odSet]

/-- `mark_processed` on a non-full cache with a fresh key appends. -/
theorem markProcessed_append (now ttl maxSize rc : Nat)
    (mid et ph : String) (c : Cache) (h1 : c.length < maxSize)
    (h2 : c.any (fun p => p.1 == mid) = false) :
    markProcessed now ttl maxSize mid et rc ph c =
      c ++ [(mid, ⟨et, rc, ph, now, now + ttl⟩)] := by
  have hle : ¬ maxSize ≤ c.length := by omega
  simp [markProcessed, odSet, hle, h2]

/-- The expiry sweep keeps every entry that is still live. -/
theorem cleanupExpired_keep (t : Nat) (c : Cache)
    (h : ∀ p ∈ c, ¬ p.2.expires_at < t) : cleanupExpired t c = c := by
  unfold cleanupExpired
  rw [List.filter_eq_self]
  intro p hp
  simp [h p hp]

/-- Anything found after the sweep was already in the cache. -/
theorem any_of_cleanup (t : Nat) (c : Cache)
    (f : String × DedupEntry → Bool)
    (h : (cleanupExpired t c).any f = true) : c.any f = true := by
  rw [List.any_eq_true] at h ⊢
  obtain ⟨p, hp, hf⟩ := h
  exact ⟨p, List.mem_of_mem_filter hp, hf⟩

/-- The customer callback always succeeds and appends exactly the
payload records (no-op on an empty payload). -/
theorem processCustomerMessage_run (m : MessageData) (mg : MergeSt) :
    processCustomerMessage m mg =
      .ok true ⟨mg.customer_buffer ++ m.payload.getD [],
                mg.inventory_buffer⟩ := by
  unfold processCustomerMessage addCustomerData
  by_cases h : (m.payload.getD []).isEmpty
  · have hnil : m.payload.getD [] = [] := by simpa using h
    simp [h, hnil]
  · simp [h]

/-- Delivering the same parsed message twice to a fresh-cached customer
consumer: the first delivery runs the callback and is committed, the
redelivery (while the entry is live) is skipped and still committed. -/
theorem redelivery_run (m' : MessageData) (mg : MergeSt) (t₁ t₂ : Nat)
    (ht : t₂ ≤ t₁ + IDEMPOTENCY_CACHE_TTL) :
    (runConsumer IDEMPOTENCY_CACHE_TTL IDEMPOTENCY_CACHE_SIZE
        processCustomerMessage ⟨[], mg, 0, 0, 0⟩
        [(t₁, .msg m'), (t₂, .msg m')]).2 =
          [⟨true, true⟩, ⟨true, false⟩] ∧
    (runConsumer IDEMPOTENCY_CACHE_TTL IDEMPOTENCY_CACHE_SIZE
        processCustomerMessage ⟨[], mg, 0, 0, 0⟩
        [(t₁, .msg m'), (t₂, .msg m')]).1.merge.customer_buffer =
          mg.customer_buffer ++ m'.payload.getD [] ∧
    (runConsumer IDEMPOTENCY_CACHE_TTL IDEMPOTENCY_CACHE_SIZE
        processCustomerMessage ⟨[], mg, 0, 0, 0⟩
        [(t₁, .msg m'), (t₂, .msg m')]).1.merge.inventory_buffer =
          mg.inventory_buffer ∧
    (runConsumer IDEMPOTENCY_CACHE_TTL IDEMPOTENCY_CACHE_SIZE
        processCustomerMessage ⟨[], mg, 0, 0, 0⟩
        [(t₁, .msg m'), (t₂, .msg m')]).1.messages_processed = 2 ∧
    (runConsumer IDEMPOTENCY_CACHE_TTL IDEMPOTENCY_CACHE_SIZE
        processCustomerMessage ⟨[], mg, 0, 0, 0⟩
        [(t₁, .msg m'), (t₂, .msg m')]).1.messages_skipped = 1 ∧
    (runConsumer IDEMPOTENCY_CACHE_TTL IDEMPOTENCY_CACHE_SIZE
        processCustomerMessage ⟨[], mg, 0, 0, 0⟩
        [(t₁, .msg m'), (t₂, .msg m')]).1.errors_count = 0 := by
  have hlive : ¬ (t₁ + IDEMPOTENCY_CACHE_TTL < t₂) := by omega
  have e1 : consumeStep IDEMPOTENCY_CACHE_TTL IDEMPOTENCY_CACHE_SIZE
      processCustomerMessage ⟨[], mg, 0, 0, 0⟩ (t₁, .msg m') =
      (⟨[(m'.messageId.getD "unknown",
          ⟨m'.eventType.getD "unknown", (m'.payload.getD []).length,
           getPayloadHash (.arr (m'.payload.getD [])), t₁,
           t₁ + IDEMPOTENCY_CACHE_TTL⟩)],
        ⟨mg.customer_buffer ++ m'.payload.getD [], mg.inventory_buffer⟩,
        1, 0, 0⟩, ⟨true, true⟩) := by
    simp [consumeStep, processMessage, isProcessed, isDuplicateContent,
      cleanupExpired, processCustomerMessage_run, markProcessed_nil]
  have e2 : consumeStep IDEMPOTENCY_CACHE_TTL IDEMPOTENCY_CACHE_SIZE
      processCustomerMessage
      ⟨[(m'.messageId.getD "unknown",
          ⟨m'.eventType.getD "unknown", (m'.payload.getD []).length,
           getPayloadHash (.arr (m'.payload.getD [])), t₁,
           t₁ + IDEMPOTENCY_CACHE_TTL⟩)],
        ⟨mg.customer_buffer ++ m'.payload.getD [], mg.inventory_buffer⟩,
        1, 0, 0⟩ (t₂, .msg m') =
      (⟨[(m'.messageId.getD "unknown",
          ⟨m'.eventType.getD "unknown", (m'.payload.getD []).length,
           getPayloadHash (.arr (m'.payload.getD [])), t₁,
           t₁ + IDEMPOTENCY_CACHE_TTL⟩)],
        ⟨mg.customer_buffer ++ m'.payload.getD [], mg.inventory_buffer⟩,
        2, 1, 0⟩, ⟨true, false⟩) := by
    simp [consumeStep, processMessage, isProcessed, cleanupExpired, hlive]
  refine ⟨?_, ?_, ?_, ?_, ?_, ?_⟩ <;> simp [runConsumer, e1, e2]

/-- C1: a message whose identity has a live dedup entry at poll time is
skipped (callback not invoked, skipped counter up, buffer untouched) and
its offset is still committed; consequently delivering the same message
twice (fresh cache, live entry at redelivery) invokes the callback
exactly once, commits both offsets, and appends the records to the
merge buffer exactly once. -/
theorem C1_idempotent_redelivery (ttl maxSize now : Nat) (cb : Callback)
    (m : MessageData) (st : ConsumerSt) (m' : MessageData) (mg : MergeSt)
    (t₁ t₂ : Nat)
    (hproc : (isProcessed now (m.messageId.getD "unknown") st.cache).1 = true)
    (ht : t₂ ≤ t₁ + IDEMPOTENCY_CACHE_TTL) :
    ((consumeStep ttl maxSize cb st (now, .msg m)).2 =
        ⟨true, false⟩ ∧
     (consumeStep ttl maxSize cb st (now, .msg m)).1.messages_skipped =
        st.messages_skipped + 1 ∧
     (consumeStep ttl maxSize cb st (now, .msg m)).1.messages_processed =
        st.messages_processed + 1 ∧
     (consumeStep ttl maxSize cb st (now, .msg m)).1.merge = st.merge) ∧
    ((runConsumer IDEMPOTENCY_CACHE_TTL IDEMPOTENCY_CACHE_SIZE
        processCustomerMessage ⟨[], mg, 0, 0, 0⟩
        [(t₁, .msg m'), (t₂, .msg m')]).2 =
          [⟨true, true⟩, ⟨true, false⟩] ∧
     (runConsumer IDEMPOTENCY_CACHE_TTL IDEMPOTENCY_CACHE_SIZE
        processCustomerMessage ⟨[], mg, 0, 0, 0⟩
        [(t₁, .msg m'), (t₂, .msg m')]).1.merge.customer_buffer =
          mg.customer_buffer ++ m'.payload.getD [] ∧
     (runConsumer IDEMPOTENCY_CACHE_TTL IDEMPOTENCY_CACHE_SIZE
        processCustomerMessage ⟨[], mg, 0, 0, 0⟩
        [(t₁, .msg m'), (t₂, .msg m')]).1.merge.inventory_buffer =
          mg.inventory_buffer ∧
     (runConsumer IDEMPOTENCY_CACHE_TTL IDEMPOTENCY_CACHE_SIZE
        processCustomerMessage ⟨[], mg, 0, 0, 0⟩
        [(t₁, .msg m'), (t₂, .msg m')]).1.messages_processed = 2 ∧
     (runConsumer IDEMPOTENCY_CACHE_TTL IDEMPOTENCY_CACHE_SIZE
        processCustomerMessage ⟨[], mg, 0, 0, 0⟩
        [(t₁, .msg m'), (t₂, .msg m')]).1.messages_skipped = 1 ∧
     (runConsumer IDEMPOTENCY_CACHE_TTL IDEMPOTENCY_CACHE_SIZE
        processCustomerMessage ⟨[], mg, 0, 0, 0⟩
        [(t₁, .msg m'), (t₂, .msg m')]).1.errors_count = 0) := by
  constructor
  · refine ⟨?_, ?_, ?_, ?_⟩ <;> simp [consumeStep, processMessage, hproc]
  · exact redelivery_run m' mg t₁ t₂ ht

/-- C1 witness: a concrete already-cached message and a concrete
redelivered message. -/
theorem C1_idempotent_redelivery_witness :
    ((consumeStep 3600 10000 processCustomerMessage
        ⟨[("m0", ⟨"CUSTOMER", 1, "h0", 0, 3600⟩)], ⟨[], []⟩, 0, 0, 0⟩
        (0, .msg ⟨some "m0", some "CUSTOMER",
          some [PyJson.JValue.obj [("id", PyJson.JValue.str "c1")]]⟩)).2 =
        ⟨true, false⟩ ∧
     (consumeStep 3600 10000 processCustomerMessage
        ⟨[("m0", ⟨"CUSTOMER", 1, "h0", 0, 3600⟩)], ⟨[], []⟩, 0, 0, 0⟩
        (0, .msg ⟨some "m0", some "CUSTOMER",
          some [PyJson.JValue.obj [("id", PyJson.JValue.str "c1")]]⟩)).1.messages_skipped =
        0 + 1 ∧
     (consumeStep 3600 10000 processCustomerMessage
        ⟨[("m0", ⟨"CUSTOMER", 1, "h0", 0, 3600⟩)], ⟨[], []⟩, 0, 0, 0⟩
        (0, .msg ⟨some "m0", some "CUSTOMER",
          some [PyJson.JValue.obj [("id", PyJson.JValue.str "c1")]]⟩)).1.messages_processed =
        0 + 1 ∧
     (consumeStep 3600 10000 processCustomerMessage
        ⟨[("m0", ⟨"CUSTOMER", 1, "h0", 0, 3600⟩)], ⟨[], []⟩, 0, 0, 0⟩
        (0, .msg ⟨some "m0", some "CUSTOMER",
          some [PyJson.JValue.obj [("id", PyJson.JValue.str "c1")]]⟩)).1.merge =
        (⟨[], []⟩ : MergeSt)) ∧
    ((runConsumer IDEMPOTENCY_CACHE_TTL IDEMPOTENCY_CACHE_SIZE
        processCustomerMessage ⟨[], ⟨[], []⟩, 0, 0, 0⟩
        [(0, .msg ⟨some "m1", some "CUSTOMER",
            some [PyJson.JValue.obj [("id", PyJson.JValue.str "c1")]]⟩),
         (1, .msg ⟨some "m1", some "CUSTOMER",
            some [PyJson.JValue.obj [("id", PyJson.JValue.str "c1")]]⟩)]).2 =
          [⟨true, true⟩, ⟨true, false⟩] ∧
     (runConsumer IDEMPOTENCY_CACHE_TTL IDEMPOTENCY_CACHE_SIZE
        processCustomerMessage ⟨[], ⟨[], []⟩, 0, 0, 0⟩
        [(0, .msg ⟨some "m1", some "CUSTOMER",
            some [PyJson.JValue.obj [("id", PyJson.JValue.str "c1")]]⟩),
         (1, .msg ⟨some "m1", some "CUSTOMER",
            some [PyJson.JValue.obj [("id", PyJson.JValue.str "c1")]]⟩)]).1.merge.customer_buffer =
          [] ++ [PyJson.JValue.obj [("id", PyJson.JValue.str "c1")]] ∧
     (runConsumer IDEMPOTENCY_CACHE_TTL IDEMPOTENCY_CACHE_SIZE
        processCustomerMessage ⟨[], ⟨[], []⟩, 0, 0, 0⟩
        [(0, .msg ⟨some "m1", some "CUSTOMER",
            some [PyJson.JValue.obj [("id", PyJson.JValue.str "c1")]]⟩),
         (1, .msg ⟨some "m1", some "CUSTOMER",
            some [PyJson.JValue.obj [("id", PyJson.JValue.str "c1")]]⟩)]).1.merge.inventory_buffer =
          [] ∧
     (runConsumer IDEMPOTENCY_CACHE_TTL IDEMPOTENCY_CACHE_SIZE
        processCustomerMessage ⟨[], ⟨[], []⟩, 0, 0, 0⟩
        [(0, .msg ⟨some "m1", some "CUSTOMER",
            some [PyJson.JValue.obj [("id", PyJson.JValue.str "c1")]]⟩),
         (1, .msg ⟨some "m1", some "CUSTOMER",
            some [PyJson.JValue.obj [("id", PyJson.JValue.str "c1")]]⟩)]).1.messages_processed =
          2 ∧
     (runConsumer IDEMPOTENCY_CACHE_TTL IDEMPOTENCY_CACHE_SIZE
        processCustomerMessage ⟨[], ⟨[], []⟩, 0, 0, 0⟩
        [(0, .msg ⟨some "m1", some "CUSTOMER",
            some [PyJson.JValue.obj [("id", PyJson.JValue.str "c1")]]⟩),
         (1, .msg ⟨some "m1", some "CUSTOMER",
            some [PyJson.JValue.obj [("id", PyJson.JValue.str "c1")]]⟩)]).1.messages_skipped =
          1 ∧
     (runConsumer IDEMPOTENCY_CACHE_TTL IDEMPOTENCY_CACHE_SIZE
        processCustomerMessage ⟨[], ⟨[], []⟩, 0, 0, 0⟩
        [(0, .msg ⟨some "m1", some "CUSTOMER",
            some [PyJson.JValue.obj [("id", PyJson.JValue.str "c1")]]⟩),
         (1, .msg ⟨some "m1", some "CUSTOMER",
            some [PyJson.JValue.obj [("id", PyJson.JValue.str "c1")]]⟩)]).1.errors_count =
          0) :=
  C1_idempotent_redelivery 3600 10000 0 processCustomerMessage
    ⟨some "m0", some "CUSTOMER",
      some [PyJson.JValue.obj [("id", PyJson.JValue.str "c1")]]⟩
    ⟨[("m0", ⟨"CUSTOMER", 1, "h0", 0, 3600⟩)], ⟨[], []⟩, 0, 0, 0⟩
    ⟨some "m1", some "CUSTOMER",
      some [PyJson.JValue.obj [("id", PyJson.JValue.str "c1")]]⟩
    ⟨[], []⟩ 0 1 (by decide) (by decide)

/-- `True` when a `process_callback` invocation did not run to a
successful completion: it returned `False` or raised. -/
def cbFailed : CbResult → Bool
  | .ok b _ => !b
  | .exn _ => true

/-- C2: commit-iff-accounted.  For a fresh message whose callback fails
(returns `False` or raises): the offset is not committed, the error
counter is incremented, and a later redelivery of the same message
reaches the callback again.  A parse failure likewise withholds the
commit, counts an error, and leaves the state otherwise untouched for
redelivery.  Conversely a callback that runs to successful completion,
an identity skip, or a content-duplicate skip always commits. -/
theorem C2_commit_contract (ttl maxSize t₁ t₂ : Nat) (cb : Callback)
    (m : MessageData) (st : ConsumerSt)
    (hfresh1 : (isProcessed t₁ (m.messageId.getD "unknown") st.cache).1 =
      false)
    (hfresh2 : (isDuplicateContent t₁
        (getPayloadHash (.arr (m.payload.getD [])))
        (isProcessed t₁ (m.messageId.getD "unknown") st.cache).2).1 = false)
    (hfail : cbFailed (cb m st.merge) = true) :
    (consumeStep ttl maxSize cb st (t₁, .msg m)).2 = ⟨false, true⟩ ∧
    (consumeStep ttl maxSize cb st (t₁, .msg m)).1.errors_count =
      st.errors_count + 1 ∧
    (consumeStep ttl maxSize cb st (t₁, .msg m)).1.messages_processed =
      st.messages_processed ∧
    (consumeStep ttl maxSize cb
        (consumeStep ttl maxSize cb st (t₁, .msg m)).1
        (t₂, .msg m)).2.callbackInvoked = true ∧
    (∀ (st' : ConsumerSt) (now : Nat) (mg' : MergeSt),
        cb m st'.merge = .ok true mg' →
        (consumeStep ttl maxSize cb st' (now, .msg m)).2.committed = true) ∧
    (∀ (st' : ConsumerSt) (now : Nat),
        (isProcessed now (m.messageId.getD "unknown") st'.cache).1 = true →
        (consumeStep ttl maxSize cb st' (now, .msg m)).2.committed =
          true) ∧
    (∀ (st' : ConsumerSt) (now : Nat),
        (consumeStep ttl maxSize cb st' (now, .malformed)).2 =
          ⟨false, false⟩ ∧
        (consumeStep ttl maxSize cb st' (now, .malformed)).1.errors_count =
          st'.errors_count + 1 ∧
        (consumeStep ttl maxSize cb st' (now, .malformed)).1.cache =
          st'.cache ∧
        (consumeStep ttl maxSize cb st' (now, .malformed)).1.merge =
          st'.merge ∧
        (consumeStep ttl maxSize cb st'
          (now, .malformed)).1.messages_processed =
          st'.messages_processed) ∧
    (∀ (st' : ConsumerSt) (now : Nat),
        (isProcessed now (m.messageId.getD "unknown") st'.cache).1 =
          false →
        (isDuplicateContent now (getPayloadHash (.arr (m.payload.getD [])))
          (isProcessed now (m.messageId.getD "unknown") st'.cache).2).1 =
          true →
        (consumeStep ttl maxSize cb st' (now, .msg m)).2.committed =
          true) := by
  -- the failed first attempt
  have step1 : consumeStep ttl maxSize cb st (t₁, .msg m) =
      ({ st with
           cache := (isDuplicateContent t₁
             (getPayloadHash (.arr (m.payload.getD [])))
             (isProcessed t₁ (m.messageId.getD "unknown") st.cache).2).2,
           merge := match cb m st.merge with
             | .ok _ mgx => mgx
             | .exn mgx => mgx,
           errors_count := st.errors_count + 1 },
        ⟨false, true⟩) := by
    rcases hcb : cb m st.merge with ⟨b, mgx⟩ | mgx
    · have hb : b = false := by
        simpa [cbFailed, hcb] using hfail
      subst hb
      simp [consumeStep, processMessage, hfresh1, hfresh2, hcb]
    · simp [consumeStep, processMessage, hfresh1, hfresh2, hcb]
  refine ⟨by rw [step1], by rw [step1], by rw [step1], ?_, ?_, ?_, ?_, ?_⟩
  · -- redelivery reaches the callback again
    rw [step1]
    have hf1 : (cleanupExpired t₁ st.cache).any
        (fun p => p.1 == m.messageId.getD "unknown") = false := hfresh1
    have hf2 : (cleanupExpired t₁ (cleanupExpired t₁ st.cache)).any
        (fun p => p.2.payload_hash ==
          getPayloadHash (.arr (m.payload.getD []))) = false := hfresh2
    have hkey2 : (cleanupExpired t₂
        (cleanupExpired t₁ (cleanupExpired t₁ st.cache))).any
        (fun p => p.1 == m.messageId.getD "unknown") = false := by
      by_contra hc
      rw [Bool.not_eq_false] at hc
      have h1 := any_of_cleanup _ _ _ hc
      have h2 := any_of_cleanup _ _ _ h1
      rw [hf1] at h2
      exact Bool.false_ne_true h2
    have hhash2 : (cleanupExpired t₂ (cleanupExpired t₂
        (cleanupExpired t₁ (cleanupExpired t₁ st.cache)))).any
        (fun p => p.2.payload_hash ==
          getPayloadHash (.arr (m.payload.getD []))) = false := by
      by_contra hc
      rw [Bool.not_eq_false] at hc
      have h1 := any_of_cleanup _ _ _ hc
      have h2 := any_of_cleanup _ _ _ h1
      rw [hf2] at h2
      exact Bool.false_ne_true h2
    rcases hcb2 : cb m (match cb m st.merge with
        | .ok _ mgx => mgx
        | .exn mgx => mgx) with ⟨b2, mgy⟩ | mgy
    · cases b2 <;>
        simp [consumeStep, processMessage, isProcessed, isDuplicateContent,
          hkey2, hhash2, hcb2]
    · simp [consumeStep, processMessage, isProcessed, isDuplicateContent,
        hkey2, hhash2, hcb2]
  · intro st' now mg' hok
    by_cases hp : (isProcessed now (m.messageId.getD "unknown")
        st'.cache).1 = true
    · simp [consumeStep, processMessage, hp]
    · rw [Bool.not_eq_true] at hp
      by_cases hd : (isDuplicateContent now
          (getPayloadHash (.arr (m.payload.getD [])))
          (isProcessed now (m.messageId.getD "unknown") st'.cache).2).1 =
          true
      · simp [consumeStep, processMessage, hp, hd]
      · rw [Bool.not_eq_true] at hd
        simp [consumeStep, processMessage, hp, hd, hok]
  · intro st' now hp
    simp [consumeStep, processMessage, hp]
  · intro st' now
    refine ⟨?_, ?_, ?_, ?_, ?_⟩ <;> simp [consumeStep, processMessage]
  · intro st' now hp hd
    simp [consumeStep, processMessage, hp, hd]

/-- C2 witness: a concrete fresh message whose callback reports
failure. -/
theorem C2_commit_contract_witness :
    (consumeStep 3600 10000 (fun _ mg => .ok false mg)
        ⟨[], ⟨[], []⟩, 0, 0, 0⟩
        (0, .msg ⟨some "m1", some "CUSTOMER",
          some [PyJson.JValue.obj [("id", PyJson.JValue.str "c1")]]⟩)).2 =
      ⟨false, true⟩ ∧
    (consumeStep 3600 10000 (fun _ mg => .ok false mg)
        ⟨[], ⟨[], []⟩, 0, 0, 0⟩
        (0, .msg ⟨some "m1", some "CUSTOMER",
          some [PyJson.JValue.obj [("id", PyJson.JValue.str "c1")]]⟩)).1.errors_count =
      0 + 1 ∧
    (consumeStep 3600 10000 (fun _ mg => .ok false mg)
        ⟨[], ⟨[], []⟩, 0, 0, 0⟩
        (0, .msg ⟨some "m1", some "CUSTOMER",
          some [PyJson.JValue.obj [("id", PyJson.JValue.str "c1")]]⟩)).1.messages_processed =
      0 ∧
    (consumeStep 3600 10000 (fun _ mg => .ok false mg)
        (consumeStep 3600 10000 (fun _ mg => .ok false mg)
          ⟨[], ⟨[], []⟩, 0, 0, 0⟩
          (0, .msg ⟨some "m1", some "CUSTOMER",
            some [PyJson.JValue.obj [("id", PyJson.JValue.str "c1")]]⟩)).1
        (1, .msg ⟨some "m1", some "CUSTOMER",
          some [PyJson.JValue.obj [("id", PyJson.JValue.str "c1")]]⟩)).2.callbackInvoked =
      true :=
  have h := C2_commit_contract 3600 10000 0 1 (fun _ mg => .ok false mg)
    ⟨some "m1", some "CUSTOMER",
      some [PyJson.JValue.obj [("id", PyJson.JValue.str "c1")]]⟩
    ⟨[], ⟨[], []⟩, 0, 0, 0⟩ rfl rfl rfl
  ⟨h.1, h.2.1, h.2.2.1, h.2.2.2.1⟩

/-- C3: two messages with different identities but identical
canonicalized payloads, processed in sequence from a fresh cache: the
callback runs only for the first; the second is caught by the content
check, recorded under its own identity with its own record count and
hash, counted as skipped, and committed; afterwards both identities are
lookup-positive while their entries are live. -/
theorem C3_content_dedup (m₁ m₂ : MessageData) (mg : MergeSt)
    (t₁ t₂ t₃ : Nat)
    (hids : m₁.messageId.getD "unknown" ≠ m₂.messageId.getD "unknown")
    (hhash : getPayloadHash (.arr (m₁.payload.getD [])) =
      getPayloadHash (.arr (m₂.payload.getD [])))
    (ht₁₂ : t₁ ≤ t₂) (ht₂ : t₂ ≤ t₁ + IDEMPOTENCY_CACHE_TTL)
    (ht₃ : t₃ ≤ t₁ + IDEMPOTENCY_CACHE_TTL) :
    (runConsumer IDEMPOTENCY_CACHE_TTL IDEMPOTENCY_CACHE_SIZE
        processCustomerMessage ⟨[], mg, 0, 0, 0⟩
        [(t₁, .msg m₁), (t₂, .msg m₂)]).2 =
          [⟨true, true⟩, ⟨true, false⟩] ∧
    (runConsumer IDEMPOTENCY_CACHE_TTL IDEMPOTENCY_CACHE_SIZE
        processCustomerMessage ⟨[], mg, 0, 0, 0⟩
        [(t₁, .msg m₁), (t₂, .msg m₂)]).1.merge.customer_buffer =
          mg.customer_buffer ++ m₁.payload.getD [] ∧
    (runConsumer IDEMPOTENCY_CACHE_TTL IDEMPOTENCY_CACHE_SIZE
        processCustomerMessage ⟨[], mg, 0, 0, 0⟩
        [(t₁, .msg m₁), (t₂, .msg m₂)]).1.messages_skipped = 1 ∧
    (runConsumer IDEMPOTENCY_CACHE_TTL IDEMPOTENCY_CACHE_SIZE
        processCustomerMessage ⟨[], mg, 0, 0, 0⟩
        [(t₁, .msg m₁), (t₂, .msg m₂)]).1.messages_processed = 2 ∧
    (runConsumer IDEMPOTENCY_CACHE_TTL IDEMPOTENCY_CACHE_SIZE
        processCustomerMessage ⟨[], mg, 0, 0, 0⟩
        [(t₁, .msg m₁), (t₂, .msg m₂)]).1.cache =
      [(m₁.messageId.getD "unknown",
        ⟨m₁.eventType.getD "unknown", (m₁.payload.getD []).length,
         getPayloadHash (.arr (m₁.payload.getD [])), t₁,
         t₁ + IDEMPOTENCY_CACHE_TTL⟩),
       (m₂.messageId.getD "unknown",
        ⟨m₂.eventType.getD "unknown", (m₂.payload.getD []).length,
         getPayloadHash (.arr (m₂.payload.getD [])), t₂,
         t₂ + IDEMPOTENCY_CACHE_TTL⟩)] ∧
    (isProcessed t₃ (m₁.messageId.getD "unknown")
        (runConsumer IDEMPOTENCY_CACHE_TTL IDEMPOTENCY_CACHE_SIZE
          processCustomerMessage ⟨[], mg, 0, 0, 0⟩
          [(t₁, .msg m₁), (t₂, .msg m₂)]).1.cache).1 = true ∧
    (isProcessed t₃ (m₂.messageId.getD "unknown")
        (runConsumer IDEMPOTENCY_CACHE_TTL IDEMPOTENCY_CACHE_SIZE
          processCustomerMessage ⟨[], mg, 0, 0, 0⟩
          [(t₁, .msg m₁), (t₂, .msg m₂)]).1.cache).1 = true := by
  have hbne : (m₁.messageId.getD "unknown" ==
      m₂.messageId.getD "unknown") = false :=
    beq_eq_false_iff_ne.mpr hids
  have hlive2 : ¬ (t₁ + IDEMPOTENCY_CACHE_TTL < t₂) := by omega
  have hlive3a : ¬ (t₁ + IDEMPOTENCY_CACHE_TTL < t₃) := by omega
  have hlive3b : ¬ (t₂ + IDEMPOTENCY_CACHE_TTL < t₃) := by omega
  have e1 : consumeStep IDEMPOTENCY_CACHE_TTL IDEMPOTENCY_CACHE_SIZE
      processCustomerMessage ⟨[], mg, 0, 0, 0⟩ (t₁, .msg m₁) =
      (⟨[(m₁.messageId.getD "unknown",
          ⟨m₁.eventType.getD "unknown", (m₁.payload.getD []).length,
           getPayloadHash (.arr (m₁.payload.getD [])), t₁,
           t₁ + IDEMPOTENCY_CACHE_TTL⟩)],
        ⟨mg.customer_buffer ++ m₁.payload.getD [], mg.inventory_buffer⟩,
        1, 0, 0⟩, ⟨true, true⟩) := by
    simp [consumeStep, processMessage, isProcessed, isDuplicateContent,
      cleanupExpired, processCustomerMessage_run, markProcessed_nil]
  have e2 : consumeStep IDEMPOTENCY_CACHE_TTL IDEMPOTENCY_CACHE_SIZE
      processCustomerMessage
      ⟨[(m₁.messageId.getD "unknown",
          ⟨m₁.eventType.getD "unknown", (m₁.payload.getD []).length,
           getPayloadHash (.arr (m₁.payload.getD [])), t₁,
           t₁ + IDEMPOTENCY_CACHE_TTL⟩)],
        ⟨mg.customer_buffer ++ m₁.payload.getD [], mg.inventory_buffer⟩,
        1, 0, 0⟩ (t₂, .msg m₂) =
      (⟨[(m₁.messageId.getD "unknown",
          ⟨m₁.eventType.getD "unknown", (m₁.payload.getD []).length,
           getPayloadHash (.arr (m₁.payload.getD [])), t₁,
           t₁ + IDEMPOTENCY_CACHE_TTL⟩),
         (m₂.messageId.getD "unknown",
          ⟨m₂.eventType.getD "unknown", (m₂.payload.getD []).length,
           getPayloadHash (.arr (m₂.payload.getD [])), t₂,
           t₂ + IDEMPOTENCY_CACHE_TTL⟩)],
        ⟨mg.customer_buffer ++ m₁.payload.getD [], mg.inventory_buffer⟩,
        2, 1, 0⟩, ⟨true, false⟩) := by
    simp [consumeStep, processMessage, isProcessed, isDuplicateContent,
      cleanupExpired, markProcessed, odSet, IDEMPOTENCY_CACHE_SIZE,
      hlive2, hbne, hhash]
  refine ⟨?_, ?_, ?_, ?_, ?_, ?_, ?_⟩ <;>
    simp [runConsumer, e1, e2, isProcessed, cleanupExpired,
      hlive3a, hlive3b, hbne]

/-- C3 witness: `m1` and `m2` with byte-identical single-record
payloads. -/
theorem C3_content_dedup_witness :
    (runConsumer IDEMPOTENCY_CACHE_TTL IDEMPOTENCY_CACHE_SIZE
        processCustomerMessage ⟨[], ⟨[], []⟩, 0, 0, 0⟩
        [(0, .msg ⟨some "m1", some "CUSTOMER",
            some [PyJson.JValue.obj [("id", PyJson.JValue.str "c1")]]⟩),
         (1, .msg ⟨some "m2", some "CUSTOMER",
            some [PyJson.JValue.obj [("id", PyJson.JValue.str "c1")]]⟩)]).2 =
      [⟨true, true⟩, ⟨true, false⟩] ∧
    (runConsumer IDEMPOTENCY_CACHE_TTL IDEMPOTENCY_CACHE_SIZE
        processCustomerMessage ⟨[], ⟨[], []⟩, 0, 0, 0⟩
        [(0, .msg ⟨some "m1", some "CUSTOMER",
            some [PyJson.JValue.obj [("id", PyJson.JValue.str "c1")]]⟩),
         (1, .msg ⟨some "m2", some "CUSTOMER",
            some [PyJson.JValue.obj [("id", PyJson.JValue.str "c1")]]⟩)]).1.merge.customer_buffer =
      ([] : List PyJson.JValue) ++
        [PyJson.JValue.obj [("id", PyJson.JValue.str "c1")]] ∧
    (runConsumer IDEMPOTENCY_CACHE_TTL IDEMPOTENCY_CACHE_SIZE
        processCustomerMessage ⟨[], ⟨[], []⟩, 0, 0, 0⟩
        [(0, .msg ⟨some "m1", some "CUSTOMER",
            some [PyJson.JValue.obj [("id", PyJson.JValue.str "c1")]]⟩),
         (1, .msg ⟨some "m2", some "CUSTOMER",
            some [PyJson.JValue.obj [("id", PyJson.JValue.str "c1")]]⟩)]).1.messages_skipped =
      1 ∧
    (runConsumer IDEMPOTENCY_CACHE_TTL IDEMPOTENCY_CACHE_SIZE
        processCustomerMessage ⟨[], ⟨[], []⟩, 0, 0, 0⟩
        [(0, .msg ⟨some "m1", some "CUSTOMER",
            some [PyJson.JValue.obj [("id", PyJson.JValue.str "c1")]]⟩),
         (1, .msg ⟨some "m2", some "CUSTOMER",
            some [PyJson.JValue.obj [("id", PyJson.JValue.str "c1")]]⟩)]).1.messages_processed =
      2 :=
  have h := C3_content_dedup
    ⟨some "m1", some "CUSTOMER",
      some [PyJson.JValue.obj [("id", PyJson.JValue.str "c1")]]⟩
    ⟨some "m2", some "CUSTOMER",
      some [PyJson.JValue.obj [("id", PyJson.JValue.str "c1")]]⟩
    ⟨[], []⟩ 0 1 2 (by decide) rfl (by decide) (by decide) (by decide)
  ⟨h.1, h.2.1, h.2.2.1, h.2.2.2.1⟩

/-- C9: a message with a missing or empty payload is processed as a
success — callback runs, appends nothing, the identity is recorded with
record count 0, the offset is committed — and while that entry is live
any later empty-payload message with a different identity is a content
duplicate: skipped, recorded, committed, callback not invoked, buffer
unchanged. -/
theorem C9_empty_payload (m₁ m₂ : MessageData) (mg : MergeSt) (t₁ t₂ : Nat)
    (hp₁ : m₁.payload.getD [] = []) (hp₂ : m₂.payload.getD [] = [])
    (hids : m₁.messageId.getD "unknown" ≠ m₂.messageId.getD "unknown")
    (ht₂ : t₂ ≤ t₁ + IDEMPOTENCY_CACHE_TTL) :
    (runConsumer IDEMPOTENCY_CACHE_TTL IDEMPOTENCY_CACHE_SIZE
        processCustomerMessage ⟨[], mg, 0, 0, 0⟩
        [(t₁, .msg m₁), (t₂, .msg m₂)]).2 =
          [⟨true, true⟩, ⟨true, false⟩] ∧
    (runConsumer IDEMPOTENCY_CACHE_TTL IDEMPOTENCY_CACHE_SIZE
        processCustomerMessage ⟨[], mg, 0, 0, 0⟩
        [(t₁, .msg m₁), (t₂, .msg m₂)]).1.merge = mg ∧
    (runConsumer IDEMPOTENCY_CACHE_TTL IDEMPOTENCY_CACHE_SIZE
        processCustomerMessage ⟨[], mg, 0, 0, 0⟩
        [(t₁, .msg m₁), (t₂, .msg m₂)]).1.cache =
      [(m₁.messageId.getD "unknown",
        ⟨m₁.eventType.getD "unknown", 0, getPayloadHash (.arr []), t₁,
         t₁ + IDEMPOTENCY_CACHE_TTL⟩),
       (m₂.messageId.getD "unknown",
        ⟨m₂.eventType.getD "unknown", 0, getPayloadHash (.arr []), t₂,
         t₂ + IDEMPOTENCY_CACHE_TTL⟩)] ∧
    (runConsumer IDEMPOTENCY_CACHE_TTL IDEMPOTENCY_CACHE_SIZE
        processCustomerMessage ⟨[], mg, 0, 0, 0⟩
        [(t₁, .msg m₁), (t₂, .msg m₂)]).1.messages_processed = 2 ∧
    (runConsumer IDEMPOTENCY_CACHE_TTL IDEMPOTENCY_CACHE_SIZE
        processCustomerMessage ⟨[], mg, 0, 0, 0⟩
        [(t₁, .msg m₁), (t₂, .msg m₂)]).1.messages_skipped = 1 ∧
    (runConsumer IDEMPOTENCY_CACHE_TTL IDEMPOTENCY_CACHE_SIZE
        processCustomerMessage ⟨[], mg, 0, 0, 0⟩
        [(t₁, .msg m₁), (t₂, .msg m₂)]).1.errors_count = 0 := by
  have hbne : (m₁.messageId.getD "unknown" ==
      m₂.messageId.getD "unknown") = false :=
    beq_eq_false_iff_ne.mpr hids
  have hlive2 : ¬ (t₁ + IDEMPOTENCY_CACHE_TTL < t₂) := by omega
  have e1 : consumeStep IDEMPOTENCY_CACHE_TTL IDEMPOTENCY_CACHE_SIZE
      processCustomerMessage ⟨[], mg, 0, 0, 0⟩ (t₁, .msg m₁) =
      (⟨[(m₁.messageId.getD "unknown",
          ⟨m₁.eventType.getD "unknown", 0, getPayloadHash (.arr []), t₁,
           t₁ + IDEMPOTENCY_CACHE_TTL⟩)],
        mg, 1, 0, 0⟩, ⟨true, true⟩) := by
    simp [consumeStep, processMessage, isProcessed, isDuplicateContent,
      cleanupExpired, processCustomerMessage_run, markProcessed_nil, hp₁]
  have e2 : consumeStep IDEMPOTENCY_CACHE_TTL IDEMPOTENCY_CACHE_SIZE
      processCustomerMessage
      ⟨[(m₁.messageId.getD "unknown",
          ⟨m₁.eventType.getD "unknown", 0, getPayloadHash (.arr []), t₁,
           t₁ + IDEMPOTENCY_CACHE_TTL⟩)],
        mg, 1, 0, 0⟩ (t₂, .msg m₂) =
      (⟨[(m₁.messageId.getD "unknown",
          ⟨m₁.eventType.getD "unknown", 0, getPayloadHash (.arr []), t₁,
           t₁ + IDEMPOTENCY_CACHE_TTL⟩),
         (m₂.messageId.getD "unknown",
          ⟨m₂.eventType.getD "unknown", 0, getPayloadHash (.arr []), t₂,
           t₂ + IDEMPOTENCY_CACHE_TTL⟩)],
        mg, 2, 1, 0⟩, ⟨true, false⟩) := by
    simp [consumeStep, processMessage, isProcessed, isDuplicateContent,
      cleanupExpired, markProcessed, odSet, IDEMPOTENCY_CACHE_SIZE,
      hlive2, hbne, hp₂]
  refine ⟨?_, ?_, ?_, ?_, ?_, ?_⟩ <;> simp [runConsumer, e1, e2]

/-- C9 witness: one message with the payload field missing, one with an
empty payload list. -/
theorem C9_empty_payload_witness :
    (runConsumer IDEMPOTENCY_CACHE_TTL IDEMPOTENCY_CACHE_SIZE
        processCustomerMessage ⟨[], ⟨[], []⟩, 0, 0, 0⟩
        [(0, .msg ⟨some "m1", some "CUSTOMER", none⟩),
         (1, .msg ⟨some "m2", some "CUSTOMER", some []⟩)]).2 =
      [⟨true, true⟩, ⟨true, false⟩] ∧
    (runConsumer IDEMPOTENCY_CACHE_TTL IDEMPOTENCY_CACHE_SIZE
        processCustomerMessage ⟨[], ⟨[], []⟩, 0, 0, 0⟩
        [(0, .msg ⟨some "m1", some "CUSTOMER", none⟩),
         (1, .msg ⟨some "m2", some "CUSTOMER", some []⟩)]).1.merge =
      (⟨[], []⟩ : MergeSt) ∧
    (runConsumer IDEMPOTENCY_CACHE_TTL IDEMPOTENCY_CACHE_SIZE
        processCustomerMessage ⟨[], ⟨[], []⟩, 0, 0, 0⟩
        [(0, .msg ⟨some "m1", some "CUSTOMER", none⟩),
         (1, .msg ⟨some "m2", some "CUSTOMER", some []⟩)]).1.cache =
      [("m1", ⟨"CUSTOMER", 0, getPayloadHash (.arr []), 0,
          0 + IDEMPOTENCY_CACHE_TTL⟩),
       ("m2", ⟨"CUSTOMER", 0, getPayloadHash (.arr []), 1,
          1 + IDEMPOTENCY_CACHE_TTL⟩)] ∧
    (runConsumer IDEMPOTENCY_CACHE_TTL IDEMPOTENCY_CACHE_SIZE
        processCustomerMessage ⟨[], ⟨[], []⟩, 0, 0, 0⟩
        [(0, .msg ⟨some "m1", some "CUSTOMER", none⟩),
         (1, .msg ⟨some "m2", some "CUSTOMER", some []⟩)]).1.messages_processed =
      2 ∧
    (runConsumer IDEMPOTENCY_CACHE_TTL IDEMPOTENCY_CACHE_SIZE
        processCustomerMessage ⟨[], ⟨[], []⟩, 0, 0, 0⟩
        [(0, .msg ⟨some "m1", some "CUSTOMER", none⟩),
         (1, .msg ⟨some "m2", some "CUSTOMER", some []⟩)]).1.messages_skipped =
      1 ∧
    (runConsumer IDEMPOTENCY_CACHE_TTL IDEMPOTENCY_CACHE_SIZE
        processCustomerMessage ⟨[], ⟨[], []⟩, 0, 0, 0⟩
        [(0, .msg ⟨some "m1", some "CUSTOMER", none⟩),
         (1, .msg ⟨some "m2", some "CUSTOMER", some []⟩)]).1.errors_count =
      0 :=
  C9_empty_payload ⟨some "m1", some "CUSTOMER", none⟩
    ⟨some "m2", some "CUSTOMER", some []⟩ ⟨[], []⟩ 0 1
    rfl rfl (by decide) (by decide)

/-- Each `consume` iteration either commits (processed up by one,
skipped up by zero or one, errors unchanged) or fails (errors up by
one, the other counters unchanged). -/
theorem consumeStep_counter_cases (ttl maxSize : Nat) (cb : Callback)
    (st : ConsumerSt) (item : Nat × PollItem) :
    ((consumeStep ttl maxSize cb st item).1.messages_processed =
        st.messages_processed + 1 ∧
     ((consumeStep ttl maxSize cb st item).1.messages_skipped =
        st.messages_skipped ∨
      (consumeStep ttl maxSize cb st item).1.messages_skipped =
        st.messages_skipped + 1) ∧
     (consumeStep ttl maxSize cb st item).1.errors_count =
        st.errors_count) ∨
    ((consumeStep ttl maxSize cb st item).1.messages_processed =
        st.messages_processed ∧
     (consumeStep ttl maxSize cb st item).1.messages_skipped =
        st.messages_skipped ∧
     (consumeStep ttl maxSize cb st item).1.errors_count =
        st.errors_count + 1) := by
  obtain ⟨now, it⟩ := item
  rcases it with _ | m
  · right
    simp [consumeStep, processMessage]
  · by_cases h1 : (isProcessed now (m.messageId.getD "unknown")
        st.cache).1 = true
    · left
      simp [consumeStep, processMessage, h1]
    · rw [Bool.not_eq_true] at h1
      by_cases h2 : (isDuplicateContent now
          (getPayloadHash (.arr (m.payload.getD [])))
          (isProcessed now (m.messageId.getD "unknown") st.cache).2).1 =
          true
      · left
        simp [consumeStep, processMessage, h1, h2]
      · rw [Bool.not_eq_true] at h2
        rcases hcb : cb m st.merge with ⟨b, mgx⟩ | mgx
        · cases b
          · right
            simp [consumeStep, processMessage, h1, h2, hcb]
          · left
            simp [consumeStep, processMessage, h1, h2, hcb]
        · right
          simp [consumeStep, processMessage, h1, h2, hcb]

/-- C10: `messages_processed` counts every committed message including
deduplication skips — a skipped message increments both `skipped` and
`processed` — so `skipped ≤ processed` is preserved over any run, and
the three counters do not partition the fetched messages: a concrete
2-message run reports counters summing to 3. -/
theorem C10_counter_accounting :
    (∀ (ttl maxSize : Nat) (cb : Callback) (st : ConsumerSt)
       (items : List (Nat × PollItem)),
       st.messages_skipped ≤ st.messages_processed →
       (runConsumer ttl maxSize cb st items).1.messages_skipped ≤
         (runConsumer ttl maxSize cb st items).1.messages_processed) ∧
    (∀ (ttl maxSize : Nat) (cb : Callback) (st : ConsumerSt)
       (item : Nat × PollItem),
       (consumeStep ttl maxSize cb st item).1.messages_skipped =
         st.messages_skipped + 1 →
       (consumeStep ttl maxSize cb st item).1.messages_processed =
         st.messages_processed + 1) ∧
    ((runConsumer IDEMPOTENCY_CACHE_TTL IDEMPOTENCY_CACHE_SIZE
        processCustomerMessage ⟨[], ⟨[], []⟩, 0, 0, 0⟩
        [(0, .msg ⟨some "m1", some "CUSTOMER", none⟩),
         (1, .msg ⟨some "m1", some "CUSTOMER", none⟩)]).1.messages_processed +
     (runConsumer IDEMPOTENCY_CACHE_TTL IDEMPOTENCY_CACHE_SIZE
        processCustomerMessage ⟨[], ⟨[], []⟩, 0, 0, 0⟩
        [(0, .msg ⟨some "m1", some "CUSTOMER", none⟩),
         (1, .msg ⟨some "m1", some "CUSTOMER", none⟩)]).1.messages_skipped +
     (runConsumer IDEMPOTENCY_CACHE_TTL IDEMPOTENCY_CACHE_SIZE
        processCustomerMessage ⟨[], ⟨[], []⟩, 0, 0, 0⟩
        [(0, .msg ⟨some "m1", some "CUSTOMER", none⟩),
         (1, .msg ⟨some "m1", some "CUSTOMER", none⟩)]).1.errors_count = 3 ∧
     ([(0, .msg ⟨some "m1", some "CUSTOMER", none⟩),
       (1, .msg ⟨some "m1", some "CUSTOMER", none⟩)] :
         List (Nat × PollItem)).length = 2) := by
  refine ⟨?_, ?_, ?_, rfl⟩
  · intro ttl maxSize cb st items
    induction items generalizing st with
    | nil =>
      intro h
      simpa [runConsumer] using h
    | cons it rest ih =>
      intro h
      have hstep := consumeStep_counter_cases ttl maxSize cb st it
      simp only [runConsumer]
      apply ih
      rcases hstep with ⟨hp, hs | hs, _⟩ | ⟨hp, hs, _⟩ <;> omega
  · intro ttl maxSize cb st item hskip
    rcases consumeStep_counter_cases ttl maxSize cb st item with
      ⟨hp, hs | hs, _⟩ | ⟨hp, hs, _⟩ <;> omega
  · have h := redelivery_run ⟨some "m1", some "CUSTOMER", none⟩
      ⟨[], []⟩ 0 1 (by decide)
    rw [h.2.2.2.1, h.2.2.2.2.1, h.2.2.2.2.2]

/-- C10 witness: the invariant instantiated on a run from the all-zero
counter state. -/
theorem C10_counter_accounting_witness :
    (runConsumer 3600 10000 processCustomerMessage
        ⟨[], ⟨[], []⟩, 0, 0, 0⟩ []).1.messages_skipped ≤
      (runConsumer 3600 10000 processCustomerMessage
        ⟨[], ⟨[], []⟩, 0, 0, 0⟩ []).1.messages_processed ∧
    ((consumeStep 3600 10000 processCustomerMessage
        ⟨[("m0", ⟨"CUSTOMER", 1, "h0", 0, 3600⟩)], ⟨[], []⟩, 0, 0, 0⟩
        (0, .msg ⟨some "m0", some "CUSTOMER", none⟩)).1.messages_skipped =
      0 + 1 →
     (consumeStep 3600 10000 processCustomerMessage
        ⟨[("m0", ⟨"CUSTOMER", 1, "h0", 0, 3600⟩)], ⟨[], []⟩, 0, 0, 0⟩
        (0, .msg ⟨some "m0", some "CUSTOMER", none⟩)).1.messages_processed =
      0 + 1) :=
  ⟨C10_counter_accounting.1 3600 10000 processCustomerMessage
      ⟨[], ⟨[], []⟩, 0, 0, 0⟩ [] (by decide),
   C10_counter_accounting.2.1 3600 10000 processCustomerMessage
      ⟨[("m0", ⟨"CUSTOMER", 1, "h0", 0, 3600⟩)], ⟨[], []⟩, 0, 0, 0⟩
      (0, .msg ⟨some "m0", some "CUSTOMER", none⟩)⟩

end Pipeline
